import Mathlib

/-!
Shallow embedding of the call-session logic of the voip-client repository.

The repository contains several slightly-diverging variants of the same
Twilio voice client.  The claims cite three of them, embedded here:

* the "enhanced hook" found in `src/services/twilioService.ts` (second
  document of that file, whose line numbers the claims cite): definitions
  prefixed `eh`;
* the "conference hook" found in `src/hooks/useTwilioVoice.ts` (first
  document, lines 1-567): definitions prefixed `ch`;
* the `TwilioService` class of `src/services/twilioService.ts` (first
  document, lines 1-215; `src/unnamed/part_000` holds a semantically
  identical `isMuted`/`destroy`): definitions prefixed `svc`.

Stateful code is embedded as explicit state passing: each React ref /
class field becomes a field of a state structure, each handler or method
becomes a total function on states.  Fallible collaborator operations
(token fetch, `device.connect`, call methods that may throw) are passed
in as `Except`/`Option` parameters or read from per-call outcome fields,
so that try/catch control flow is translated explicitly.  Invocations of
collaborator methods (`disconnect()`, `destroy()`, audio release, the
invite notification) are recorded in log fields of the state, so that
theorems can speak about which external calls were performed.
-/

/-- Model of JavaScript `String.prototype.startsWith`: a prefix test on the
character sequence. -/
def jsStartsWith (s pre : String) : Bool :=
  pre.data.isPrefixOf s.data

/-- Model of JavaScript `String.prototype.substring(n)`: drop the first `n`
characters. -/
def jsSubstring (s : String) (n : Nat) : String :=
  String.mk (s.data.drop n)

/-- Model of JavaScript truthy property access on a string record
(`params.key`): a missing key or an empty string is falsy. -/
def jsLookup (key : String) (ps : List (String × String)) : Option String :=
  match List.lookup key ps with
  | some v => if v = "" then none else some v
  | none => none

section EnhancedHook

/-- A Twilio call object as seen by the enhanced hook: `status()` result,
whether `disconnect()` throws, and the TwiML `parameters` record. -/
structure EHCall where
  id : Nat
  status : String := "open"
  disconnectThrows : Bool := false
  parameters : List (String × String) := []
  deriving DecidableEq

/-- State of the enhanced hook (`twilioService.ts`, second document):
the React `useState` record plus the refs, plus logs of the collaborator
invocations performed. -/
structure EHState where
  identity : String := ""
  callStatus : String := "closed"
  error : String := ""
  isMuted : Bool := false
  isInitialized : Bool := false
  callInfo : String := ""
  remoteIdentity : String := ""
  activeCall : Option EHCall := none
  device : Option Nat := none
  token : String := ""
  disconnectLog : List Nat := []
  audioReleaseLog : List Nat := []
  destroyedDevices : List Nat := []
  connectToLog : List String := []
  deriving DecidableEq

/-- `updateCallStatus` of the enhanced hook: sets `callStatus`/`callInfo`
and clears `error` exactly when the new status is `"ready"`. -/
def ehUpdateCallStatus (status info : String) (s : EHState) : EHState :=
  { s with callStatus := status, callInfo := info,
           error := if status = "ready" then "" else s.error }

/-- `handleError` of the enhanced hook: records the prefixed message and
sets `callStatus` to `"error"`. -/
def ehHandleError (msg pre : String) (s : EHState) : EHState :=
  { s with error := pre ++ ": " ++ msg, callStatus := "error" }

/-- `cleanupCallResources` of the enhanced hook (lines 287-326): if an
active call is held, disconnect it when its status is not `"closed"`
(an exception from `disconnect()` is caught, skipping the audio release),
release device audio, and clear the reference; in every case reset
`isMuted` and `remoteIdentity`.  The function is total: no exception
escapes. -/
def ehCleanupCallResources (s : EHState) : EHState :=
  let s :=
    match s.activeCall with
    | some c =>
      let step :=
        if c.status ≠ "closed" then
          ({ s with disconnectLog := c.id :: s.disconnectLog }, c.disconnectThrows)
        else (s, false)
      let s := step.1
      let s :=
        if step.2 then s
        else
          match s.device with
          | some d => { s with audioReleaseLog := d :: s.audioReleaseLog }
          | none => s
      { s with activeCall := none }
    | none => s
  { s with isMuted := false, remoteIdentity := "" }

/-- `extractClientIdentity` of the enhanced hook (lines 437-448). -/
def extractClientIdentity (parameters : List (String × String)) : String :=
  let frm := match List.lookup "From" parameters with
             | some v => v
             | none => ""
  if jsStartsWith frm "client:" then jsSubstring frm 7
  else if frm = "" then "unknown" else frm

/-- The call-event dispatch of the enhanced hook's `setupCallListeners`
(lines 450-516): listeners are registered for `ringing`, `accept`,
`error`, `warning`, `reconnecting`, `reconnected`, `disconnect`,
`cancel` and `reject`; any other event has no listener.  The delayed
reset to `"ready"` scheduled by `setTimeout` is not part of the
synchronous handler. -/
def ehCallEventHandler (event payload : String) (s : EHState) : EHState :=
  if event = "ringing" then ehUpdateCallStatus "ringing" "Ringing..." s
  else if event = "accept" then ehUpdateCallStatus "open" "Connected" s
  else if event = "error" then
    ehCleanupCallResources (ehHandleError payload "Call error" s)
  else if event = "warning" then { s with callInfo := "Warning: " ++ payload }
  else if event = "reconnecting" then
    ehUpdateCallStatus "reconnecting" ("Reconnecting: " ++ payload) s
  else if event = "reconnected" then ehUpdateCallStatus "open" "Call reconnected" s
  else if event = "disconnect" ∨ event = "cancel" ∨ event = "reject" then
    ehCleanupCallResources
      (ehUpdateCallStatus "closed"
        (if event = "disconnect" then "Call ended" else "Call rejected") s)
  else s

/-- The `device.on("incoming")` handler of the enhanced hook (lines
592-611): clean up any existing call first, store the new call, extract
the caller identity and move to `"pending"`. -/
def ehOnIncoming (c : EHCall) (s : EHState) : EHState :=
  let s := ehCleanupCallResources s
  let s := { s with activeCall := some c }
  let callerIdentity := extractClientIdentity c.parameters
  let s := { s with remoteIdentity := callerIdentity }
  ehUpdateCallStatus "pending" ("From: " ++ callerIdentity) s

/-- The destination formatting of the enhanced hook's `makeCall` (lines
690-699): conference destinations get the `conference:` prefix, direct
destinations the `client:` prefix unless already present. -/
def ehFormatDestination (callType dest : String) : String :=
  if callType = "conference" then "conference:" ++ dest
  else if jsStartsWith dest "client:" then dest
  else "client:" ++ dest

/-- `getToken` of both hooks (identical wrapper): an API failure is
rethrown as `Failed to fetch token: <message>`. -/
def hookGetToken (apiRes : Except String String) : Except String String :=
  match apiRes with
  | .ok tok => .ok tok
  | .error m => .error ("Failed to fetch token: " ++ m)

/-- `makeCall` of the enhanced hook (lines 670-748).  `connectRes` is the
outcome of `device.connect`.  The second component is what the async
function surfaces to its caller: `.error` means the exception
propagates. -/
def ehMakeCall (dest callType : String) (connectRes : Except String EHCall)
    (s : EHState) : EHState × Except String (Option EHCall) :=
  match s.device with
  | none => (s, .error "Device not initialized")
  | some _ =>
    let s := ehCleanupCallResources s
    let s :=
      if callType = "conference" then
        ehUpdateCallStatus "connecting" ("Joining conference " ++ dest ++ "...") s
      else ehUpdateCallStatus "connecting" ("Calling " ++ dest ++ "...") s
    let s := { s with remoteIdentity := dest }
    let formattedTo := ehFormatDestination callType dest
    let s := { s with connectToLog := formattedTo :: s.connectToLog }
    match connectRes with
    | .ok call =>
      let s := { s with activeCall := some call }
      let s :=
        if callType ≠ "conference" then
          ehUpdateCallStatus "ringing" ("Calling " ++ dest ++ "...") s
        else s
      (s, .ok (some call))
    | .error e =>
      let s := ehHandleError e "Failed to make call" s
      let s := ehCleanupCallResources s
      let s := ehUpdateCallStatus "ready" "" s
      (s, .error e)

/-- The try block of the enhanced hook's `initialize` (lines 527-630):
destroy any existing device, clean up any existing call, fetch the
token (`apiRes` is the token-endpoint outcome, rejecting an empty
token), request microphone permission (`micOk`), construct the device
`dev` and register it (`regRes`); the second component is the first
error thrown, if any. -/
def ehInitTry (apiRes : Except String String) (micOk : Bool)
    (regRes : Except String Unit) (dev : Nat) (s : EHState) :
    EHState × Except String Unit :=
  let s := match s.device with
           | some d => { s with device := none,
                                destroyedDevices := d :: s.destroyedDevices }
           | none => s
  let s := ehCleanupCallResources s
  match hookGetToken apiRes with
  | .error e => (s, .error e)
  | .ok token =>
    if token = "" then (s, .error "Received empty token from server")
    else
      let s := { s with token := token }
      if micOk = false then
        (s, .error "Microphone access is required. Please allow access and try again.")
      else
        let s := { s with device := some dev }
        match regRes with
        | .error m => (s, .error ("Failed to register device: " ++ m))
        | .ok _ => ({ s with isInitialized := true }, .ok ())

/-- `initialize` of the enhanced hook (lines 518-668): set the identity
and `initializing` status, run the try block, and on failure run the
catch block (lines 631-657), which records the error, sets status
`error`, destroys and clears the device, and re-throws the original
error (the second component `.error` means the exception propagates to
the caller). -/
def ehInitializeDevice (uid : String) (apiRes : Except String String)
    (micOk : Bool) (regRes : Except String Unit) (dev : Nat)
    (s : EHState) : EHState × Except String Unit :=
  let s := { s with identity := uid, error := "", callStatus := "initializing" }
  match ehInitTry apiRes micOk regRes dev s with
  | (s, .ok _) => (s, .ok ())
  | (s, .error e) =>
    let s := { s with error := "Initialization error: " ++ e,
                      callStatus := "error", isInitialized := false }
    let s := match s.device with
             | some d => { s with device := none,
                                  destroyedDevices := d :: s.destroyedDevices }
             | none => s
    (s, .error e)

end EnhancedHook

section ConferenceHook

/-- A pending conference invite (`useTwilioVoice.ts` lines 33-37); `frm`
embeds the `from` field (a Lean keyword). -/
structure IncomingInvite where
  inviteId : String
  frm : String
  toId : String
  deriving DecidableEq

/-- `ConferenceState` (`src/types/index.ts`).  The participants JSON
payload is kept as the raw string it was parsed from; no claim depends
on its parsed structure. -/
structure ConferenceState where
  isConference : Bool := false
  participantsJson : String := ""
  pendingInvites : List String := []
  deriving DecidableEq

/-- A Twilio call object as seen by the conference hook: its custom
parameters and, for each method that may throw, the message it throws
with (`none` = the method succeeds). -/
structure CHCall where
  id : Nat
  customParameters : List (String × String) := []
  acceptErr : Option String := none
  rejectErr : Option String := none
  disconnectErr : Option String := none
  muteErr : Option String := none
  deriving DecidableEq

/-- State of the conference hook (`useTwilioVoice.ts` lines 44-567): the
`useState` record plus the refs, plus logs of collaborator invocations.
`notifyCount` counts invocations of `handleIncomingConferenceInvite`
(the sound/vibration notification). -/
structure CHState where
  identity : String := ""
  callStatus : String := "closed"
  error : String := ""
  isMuted : Bool := false
  isInitialized : Bool := false
  conferenceState : ConferenceState := {}
  incomingInvite : Option IncomingInvite := none
  activeCall : Option CHCall := none
  callParams : List (String × String) := []
  device : Option Nat := none
  token : String := ""
  acceptLog : List Nat := []
  rejectLog : List Nat := []
  disconnectLog : List Nat := []
  muteLog : List (Nat × Bool) := []
  destroyedDevices : List Nat := []
  notifyCount : Nat := 0
  deriving DecidableEq

/-- `handleError` of the conference hook (lines 76-85). -/
def chHandleError (msg pre : String) (s : CHState) : CHState :=
  { s with error := pre ++ ": " ++ msg, callStatus := "error" }

/-- `updateCallStatus` of the conference hook (lines 87-102): a status
string starting with `"error:"` is split into the error message,
otherwise the status is stored and `error` cleared exactly on
`"ready"`. -/
def chUpdateCallStatus (status : String) (s : CHState) : CHState :=
  if jsStartsWith status "error:" then
    { s with error := jsSubstring status 7, callStatus := "error" }
  else
    { s with callStatus := status,
             error := if status = "ready" then "" else s.error }

/-- `handleIncomingConferenceInvite` (lines 188-242): store the invite
and fire the notification. -/
def chHandleIncomingConferenceInvite (inv : IncomingInvite) (s : CHState) :
    CHState :=
  { s with incomingInvite := some inv, notifyCount := s.notifyCount + 1 }

/-- The call-event dispatch of the conference hook's `setupCallListeners`
(lines 127-186): listeners exist only for `accept`, `disconnect`,
`cancel` and `reject`; any other call event (in particular `error`) has
no listener and leaves the state unchanged. -/
def chCallEventHandler (event : String) (s : CHState) : CHState :=
  if event = "accept" then
    let isConference := List.lookup "isConference" s.callParams = some "true"
    if isConference then
      let participantsString :=
        match jsLookup "participants" s.callParams with
        | some v => v
        | none => ""
      { s with callStatus := "conference",
               conferenceState := { isConference := true,
                                    participantsJson := participantsString,
                                    pendingInvites := [] } }
    else
      let s := chUpdateCallStatus "open" s
      { s with conferenceState := { isConference := false,
                                    participantsJson := "",
                                    pendingInvites := [] } }
  else if event = "disconnect" ∨ event = "cancel" ∨ event = "reject" then
    let s := { s with activeCall := none, callParams := [] }
    let s := chUpdateCallStatus "closed" s
    { s with isMuted := false,
             conferenceState := { isConference := false,
                                  participantsJson := "",
                                  pendingInvites := [] } }
  else s

/-- The `device.on("incoming")` handler of the conference hook (lines
271-298): a call carrying a truthy `inviteId` custom parameter is a
conference invite; otherwise the call is stored as the active call
directly (no cleanup of any existing call) and its custom parameters
become `callParamsRef`. -/
def chOnIncoming (c : CHCall) (uid : String) (s : CHState) : CHState :=
  match jsLookup "inviteId" c.customParameters with
  | some inviteId =>
    chHandleIncomingConferenceInvite
      { inviteId := inviteId
        frm := match jsLookup "from" c.customParameters with
               | some f => f
               | none => "unknown"
        toId := uid } s
  | none =>
    let s := { s with activeCall := some c }
    let s := chUpdateCallStatus "pending" s
    { s with callParams := c.customParameters }

/-- `initialize` of the conference hook (lines 244-320).  The catch block
records the error locally and returns normally: the second component is
`.ok ()` on every path (the error never propagates). -/
def chInitializeDevice (uid : String) (apiRes : Except String String)
    (dev : Nat) (s : CHState) : CHState × Except String Unit :=
  let s := { s with identity := uid, error := "", callStatus := "initializing" }
  match hookGetToken apiRes with
  | .error e =>
    ({ s with error := "Twilio error: " ++ e, callStatus := "error",
              isInitialized := false }, .ok ())
  | .ok token =>
    let s := { s with token := token, device := some dev }
    ({ s with isInitialized := true }, .ok ())

/-- `makeCall` of the conference hook (lines 322-360): prefixes the
destination with `client:` unless already present, connects, stores the
call and its parameters; a connect failure is rethrown wrapped, with no
local state reset. -/
def chMakeCall (dest : String) (connectRes : Except String CHCall)
    (s : CHState) : CHState × Except String Unit :=
  match s.device with
  | none => (s, .error "Twilio device not initialized")
  | some _ =>
    let formattedTo :=
      if jsStartsWith dest "client:" then dest else "client:" ++ dest
    match connectRes with
    | .error e => (s, .error ("Failed to initiate call: " ++ e))
    | .ok call =>
      let s := { s with activeCall := some call,
                        callParams := [("to", formattedTo),
                                       ("from", "client:" ++ s.identity)] }
      (chUpdateCallStatus "connecting" s, .ok ())

/-- `answerCall` of the conference hook (lines 362-368): `checkActiveCall`
throws `No active call` when no call is held; every exception is caught
by `handleError`, so the function is total. -/
def chAnswerCall (s : CHState) : CHState :=
  match s.activeCall with
  | none => chHandleError "No active call" "Failed to answer call" s
  | some c =>
    match c.acceptErr with
    | some m => chHandleError m "Failed to answer call" s
    | none => { s with acceptLog := c.id :: s.acceptLog }

/-- `rejectCall` of the conference hook (lines 370-379). -/
def chRejectCall (s : CHState) : CHState :=
  match s.activeCall with
  | none => chHandleError "No active call" "Failed to reject call" s
  | some c =>
    match c.rejectErr with
    | some m => chHandleError m "Failed to reject call" s
    | none => { s with rejectLog := c.id :: s.rejectLog,
                       activeCall := none, callParams := [] }

/-- `endCall` of the conference hook (lines 381-390). -/
def chEndCall (s : CHState) : CHState :=
  match s.activeCall with
  | none => chHandleError "No active call" "Failed to end call" s
  | some c =>
    match c.disconnectErr with
    | some m => chHandleError m "Failed to end call" s
    | none => { s with disconnectLog := c.id :: s.disconnectLog,
                       activeCall := none, callParams := [] }

/-- `toggleMute` of the conference hook (lines 392-401). -/
def chToggleMute (s : CHState) : CHState :=
  match s.activeCall with
  | none => chHandleError "No active call" "Failed to toggle mute" s
  | some c =>
    let newMuteState := !s.isMuted
    match c.muteErr with
    | some m => chHandleError m "Failed to toggle mute" s
    | none => { s with muteLog := (c.id, newMuteState) :: s.muteLog,
                       isMuted := newMuteState }

/-- `destroy` of the conference hook (lines 484-494): destroy and clear
the device when held, otherwise do nothing at all. -/
def chDestroy (s : CHState) : CHState :=
  match s.device with
  | none => s
  | some d =>
    { s with device := none, destroyedDevices := d :: s.destroyedDevices,
             callStatus := "closed", isInitialized := false, isMuted := false }

/-- The payload of the `/check-invites` endpoint. -/
structure PollData where
  hasInvites : Bool
  invites : List IncomingInvite
  deriving DecidableEq

/-- `pollForInvites` of the conference hook (lines 499-535): when
initialized with a non-empty identity, take the first invite of a
non-empty polling result and hand it to
`handleIncomingConferenceInvite` unless the currently displayed invite
already has the same `inviteId`; request errors are caught and
logged. -/
def chPollForInvites (s : CHState) (res : Except String PollData) : CHState :=
  if s.isInitialized = false ∨ s.identity = "" then s
  else
    match res with
    | .error _ => s
    | .ok data =>
      if data.hasInvites ∧ data.invites ≠ [] then
        match data.invites with
        | [] => s
        | invite :: _ =>
          let isNew :=
            match s.incomingInvite with
            | none => true
            | some cur => cur.inviteId ≠ invite.inviteId
          if isNew then
            chHandleIncomingConferenceInvite
              { inviteId := invite.inviteId, frm := invite.frm,
                toId := invite.toId } s
          else s
      else s

/-- The polling-interval choice of the conference hook (lines 538-553):
1500 ms while the status is `open` or `conference`, 3000 ms otherwise;
no interval is armed before initialization. -/
def chPollInterval (callStatus : String) : Nat :=
  if ["open", "conference"].contains callStatus then 1500 else 3000

/-- The polling `useEffect` guard (lines 538-539): returns the armed
interval, or `none` when not initialized. -/
def chSetupPolling (s : CHState) : Option Nat :=
  if s.isInitialized = false then none else some (chPollInterval s.callStatus)

end ConferenceHook

section ServiceClass

/-- A Twilio call object as seen by the `TwilioService` class. -/
structure SvcCall where
  id : Nat
  muted : Bool := false
  acceptErr : Option String := none
  rejectErr : Option String := none
  disconnectErr : Option String := none
  deriving DecidableEq

/-- State of the `TwilioService` class (`twilioService.ts` lines 13-213):
its private fields plus invocation logs. -/
structure SvcState where
  device : Option Nat := none
  identity : String := ""
  token : String := ""
  activeCall : Option SvcCall := none
  acceptLog : List Nat := []
  rejectLog : List Nat := []
  disconnectLog : List Nat := []
  destroyedDevices : List Nat := []
  deriving DecidableEq

/-- `TwilioService.answerCall` (lines 126-137): throws
`No active incoming call` when no call is held; an exception from
`accept()` is logged and rethrown.  `.error` means the exception
escapes to the caller. -/
def svcAnswerCall (s : SvcState) : Except String SvcState :=
  match s.activeCall with
  | none => .error "No active incoming call"
  | some c =>
    match c.acceptErr with
    | some m => .error m
    | none => .ok { s with acceptLog := c.id :: s.acceptLog }

/-- `TwilioService.rejectCall` (lines 140-152). -/
def svcRejectCall (s : SvcState) : Except String SvcState :=
  match s.activeCall with
  | none => .error "No active incoming call"
  | some c =>
    match c.rejectErr with
    | some m => .error m
    | none => .ok { s with rejectLog := c.id :: s.rejectLog,
                           activeCall := none }

/-- `TwilioService.endCall` (lines 155-167). -/
def svcEndCall (s : SvcState) : Except String SvcState :=
  match s.activeCall with
  | none => .error "No active call"
  | some c =>
    match c.disconnectErr with
    | some m => .error m
    | none => .ok { s with disconnectLog := c.id :: s.disconnectLog,
                           activeCall := none }

/-- `TwilioService.isMuted` (lines 198-204; identically
`src/unnamed/part_000` lines 251-253): `false` without an active call,
otherwise the call's own `isMuted()`. -/
def svcIsMuted (s : SvcState) : Bool :=
  match s.activeCall with
  | none => false
  | some c => c.muted

/-- `TwilioService.destroy` (lines 207-212). -/
def svcDestroy (s : SvcState) : SvcState :=
  match s.device with
  | none => s
  | some d => { s with device := none,
                       destroyedDevices := d :: s.destroyedDevices }

end ServiceClass

section TokenRefresh

/-- `TOKEN_REFRESH_INTERVAL` (`twilioService.ts` lines 254-255): refresh
59 minutes after scheduling. -/
def TOKEN_REFRESH_INTERVAL : Nat := 59 * 60 * 1000

/-- What a pending timer of the refresh process does when it fires:
attempt a refresh, or re-run `setupTokenRefresh` (the 60-second backoff
timer armed on failure). -/
inductive TimerKind where
  | refresh
  | rearm
  deriving DecidableEq

/-- State of the token-refresh process of the enhanced hook (lines
402-434): the pending timer (delay in milliseconds and what fires),
`tokenRef`, and the token last pushed into the device via
`updateToken`. -/
structure RefreshState where
  timer : Option (Nat × TimerKind) := none
  tokenRef : String := ""
  deviceToken : Option String := none
  devicePresent : Bool := true
  deriving DecidableEq

/-- `setupTokenRefresh` (lines 402-434): clear any existing timer and arm
the refresh timer at `TOKEN_REFRESH_INTERVAL`. -/
def setupTokenRefresh (s : RefreshState) : RefreshState :=
  { s with timer := some (TOKEN_REFRESH_INTERVAL, .refresh) }

/-- Firing the pending timer.  A refresh timer runs the callback of lines
410-431: on a successful token fetch the token is stored, pushed into
the live device (when present and `updateToken` succeeds, `updateOk`)
and the next refresh is scheduled; any failure lands in the catch block,
which arms a 60-second backoff timer whose own callback re-runs
`setupTokenRefresh`. -/
def fireRefreshTimer (s : RefreshState)
    (outcome : Except String String × Bool) : RefreshState :=
  match s.timer with
  | none => s
  | some (_, .rearm) => setupTokenRefresh s
  | some (_, .refresh) =>
    match outcome.1 with
    | .error _ => { s with timer := some (60000, .rearm) }
    | .ok token =>
      let s := { s with tokenRef := token }
      if s.devicePresent then
        if outcome.2 then setupTokenRefresh { s with deviceToken := some token }
        else { s with timer := some (60000, .rearm) }
      else setupTokenRefresh s

/-- Running the refresh process over a sequence of timer firings. -/
def runRefresh (s : RefreshState)
    (outcomes : List (Except String String × Bool)) : RefreshState :=
  outcomes.foldl fireRefreshTimer s

end TokenRefresh

section SampleStates

/-- A call held by the conference hook in the concrete scenarios below. -/
def samplePriorCall : CHCall := { id := 1 }

/-- A second, distinct incoming call used in the concrete scenarios. -/
def sampleNewCall : CHCall := { id := 2 }

/-- A conference-hook state holding an active, established call. -/
def sampleBusyState : CHState :=
  { activeCall := some samplePriorCall, isInitialized := true,
    identity := "alice", callStatus := "open" }

/-- A conference-hook state holding an active call with the microphone
muted. -/
def sampleMutedState : CHState :=
  { activeCall := some samplePriorCall, isMuted := true,
    callStatus := "open", isInitialized := true, identity := "alice" }

/-- A conference invite currently displayed in the concrete scenarios. -/
def sampleInviteX : IncomingInvite :=
  { inviteId := "X", frm := "bob", toId := "alice" }

/-- A distinct conference invite used in the concrete scenarios. -/
def sampleInviteY : IncomingInvite :=
  { inviteId := "Y", frm := "carol", toId := "alice" }

/-- A conference-hook state currently displaying invite `X`. -/
def sampleInviteState : CHState :=
  { isInitialized := true, identity := "alice",
    incomingInvite := some sampleInviteX, notifyCount := 1 }

end SampleStates

/-! ## Helper lemmas shared by several claims -/

theorem ehCleanup_spec (s : EHState) :
    (ehCleanupCallResources s).activeCall = none ∧
    (ehCleanupCallResources s).isMuted = false ∧
    (ehCleanupCallResources s).remoteIdentity = "" := by
  unfold ehCleanupCallResources
  cases h : s.activeCall <;> simp [h]

theorem ehCleanup_disconnect_mem (s : EHState) (old : EHCall)
    (h : s.activeCall = some old) (hst : old.status ≠ "closed") :
    old.id ∈ (ehCleanupCallResources s).disconnectLog := by
  unfold ehCleanupCallResources
  rw [h]
  simp only [hst, ne_eq, not_false_iff, if_true]
  repeat' split
  all_goals simp

theorem ehCleanup_log_mem (s : EHState) (i : Nat)
    (hi : i ∈ s.disconnectLog) :
    i ∈ (ehCleanupCallResources s).disconnectLog := by
  unfold ehCleanupCallResources
  cases h : s.activeCall <;> simp [h, hi] <;> (repeat' split) <;>
    simp [List.mem_cons, hi]

theorem ehCleanup_connectToLog (s : EHState) :
    (ehCleanupCallResources s).connectToLog = s.connectToLog := by
  unfold ehCleanupCallResources
  cases h : s.activeCall <;> simp [h] <;> (repeat' split) <;> simp

theorem ehUpdateCallStatus_fields (status info : String) (s : EHState) :
    (ehUpdateCallStatus status info s).activeCall = s.activeCall ∧
    (ehUpdateCallStatus status info s).isMuted = s.isMuted ∧
    (ehUpdateCallStatus status info s).disconnectLog = s.disconnectLog ∧
    (ehUpdateCallStatus status info s).connectToLog = s.connectToLog :=
  ⟨rfl, rfl, rfl, rfl⟩

theorem isPrefixOf_append_self (l₁ l₂ : List Char) :
    l₁.isPrefixOf (l₁ ++ l₂) = true := by
  induction l₁ with
  | nil => cases l₂ <;> rfl
  | cons c cs ih => simp [List.isPrefixOf, ih]

theorem jsStartsWith_append_self (pre rest : String) :
    jsStartsWith (pre ++ rest) pre = true := by
  unfold jsStartsWith
  cases pre with
  | mk l₁ =>
    cases rest with
    | mk l₂ => exact isPrefixOf_append_self l₁ l₂

theorem chUpdateCallStatus_fields (status : String) (t : CHState) :
    (chUpdateCallStatus status t).activeCall = t.activeCall ∧
    (chUpdateCallStatus status t).disconnectLog = t.disconnectLog ∧
    (chUpdateCallStatus status t).rejectLog = t.rejectLog ∧
    (chUpdateCallStatus status t).notifyCount = t.notifyCount := by
  unfold chUpdateCallStatus
  split <;> simp

theorem fireRefreshTimer_isSome (s : RefreshState)
    (o : Except String String × Bool) (h : s.timer.isSome = true) :
    (fireRefreshTimer s o).timer.isSome = true := by
  obtain ⟨o1, o2⟩ := o
  cases ht : s.timer with
  | none => rw [ht] at h; simp at h
  | some p =>
    obtain ⟨d, k⟩ := p
    cases k <;> cases o1 <;>
      simp [fireRefreshTimer, ht, setupTokenRefresh] <;>
      (repeat' split) <;> simp

theorem runRefresh_isSome (outs : List (Except String String × Bool))
    (s : RefreshState) (h : s.timer.isSome = true) :
    (runRefresh s outs).timer.isSome = true := by
  induction outs generalizing s with
  | nil => exact h
  | cons o os ih => exact ih _ (fireRefreshTimer_isSome s o h)

/-! ## Claim theorems -/

/-- Claim C2, counterexample: in the conference hook, a call `error`
event has no registered listener, so with an active muted call the
event leaves the Active Call reference set and the mute state `true`,
contradicting the claim that after an `error` call-ending event the
reference is null and the mute state reset. -/
theorem c2_counterexample :
    chCallEventHandler "error" sampleMutedState = sampleMutedState ∧
    sampleMutedState.activeCall = some samplePriorCall ∧
    sampleMutedState.isMuted = true :=
  ⟨rfl, rfl, rfl⟩

/-- Claim C2 (amended): in the enhanced hook, after any of the
`disconnect`, `cancel`, `reject` or `error` call events the Active Call
reference is null and `isMuted` is false, regardless of whether the
underlying call's `disconnect()` succeeded or threw (exceptions during
cleanup are caught, never propagated — the handlers are total).  In the
conference hook the same holds for `disconnect`, `cancel` and `reject`,
but no listener is registered for a call `error` event, which therefore
leaves the state (in particular the Active Call reference and the mute
state) unchanged. -/
theorem c2_call_ending_cleanup (s : EHState) (t : CHState)
    (payload : String) :
    ((ehCallEventHandler "disconnect" payload s).activeCall = none ∧
     (ehCallEventHandler "disconnect" payload s).isMuted = false) ∧
    ((ehCallEventHandler "cancel" payload s).activeCall = none ∧
     (ehCallEventHandler "cancel" payload s).isMuted = false) ∧
    ((ehCallEventHandler "reject" payload s).activeCall = none ∧
     (ehCallEventHandler "reject" payload s).isMuted = false) ∧
    ((ehCallEventHandler "error" payload s).activeCall = none ∧
     (ehCallEventHandler "error" payload s).isMuted = false) ∧
    ((chCallEventHandler "disconnect" t).activeCall = none ∧
     (chCallEventHandler "disconnect" t).isMuted = false) ∧
    ((chCallEventHandler "cancel" t).activeCall = none ∧
     (chCallEventHandler "cancel" t).isMuted = false) ∧
    ((chCallEventHandler "reject" t).activeCall = none ∧
     (chCallEventHandler "reject" t).isMuted = false) ∧
    chCallEventHandler "error" t = t := by
  have hd : ehCallEventHandler "disconnect" payload s =
      ehCleanupCallResources (ehUpdateCallStatus "closed" "Call ended" s) := rfl
  have hc : ehCallEventHandler "cancel" payload s =
      ehCleanupCallResources (ehUpdateCallStatus "closed" "Call rejected" s) := rfl
  have hr : ehCallEventHandler "reject" payload s =
      ehCleanupCallResources (ehUpdateCallStatus "closed" "Call rejected" s) := rfl
  have he : ehCallEventHandler "error" payload s =
      ehCleanupCallResources (ehHandleError payload "Call error" s) := rfl
  refine ⟨⟨?_, ?_⟩, ⟨?_, ?_⟩, ⟨?_, ?_⟩, ⟨?_, ?_⟩, ⟨rfl, rfl⟩, ⟨rfl, rfl⟩,
    ⟨rfl, rfl⟩, rfl⟩ <;>
    simp [hd, hc, hr, he, ehCleanup_spec]

/-- Claim C3, counterexample: with no active call,
`TwilioService.answerCall` throws — the exception escapes to the
caller — and its message is `No active incoming call`, not
`No active call`. -/
theorem c3_counterexample :
    svcAnswerCall {} = .error "No active incoming call" ∧
    ("No active incoming call" : String) ≠ "No active call" :=
  ⟨rfl, by decide⟩

/-- Claim C3 (amended): in the conference hook, calling `answerCall`,
`rejectCall`, `endCall` or `toggleMute` with no Active Call catches the
`No active call` error and records it in the error/status state (the
functions are total, so no exception escapes).  In the `TwilioService`
class, the same calls throw to the caller instead: `answerCall` and
`rejectCall` with message `No active incoming call`, `endCall` with
message `No active call`. -/
theorem c3_no_active_call (s : CHState) (t : SvcState) :
    ((chAnswerCall { s with activeCall := none }).error =
       "Failed to answer call: No active call" ∧
     (chAnswerCall { s with activeCall := none }).callStatus = "error") ∧
    ((chRejectCall { s with activeCall := none }).error =
       "Failed to reject call: No active call" ∧
     (chRejectCall { s with activeCall := none }).callStatus = "error") ∧
    ((chEndCall { s with activeCall := none }).error =
       "Failed to end call: No active call" ∧
     (chEndCall { s with activeCall := none }).callStatus = "error") ∧
    ((chToggleMute { s with activeCall := none }).error =
       "Failed to toggle mute: No active call" ∧
     (chToggleMute { s with activeCall := none }).callStatus = "error") ∧
    svcAnswerCall { t with activeCall := none } =
      .error "No active incoming call" ∧
    svcRejectCall { t with activeCall := none } =
      .error "No active incoming call" ∧
    svcEndCall { t with activeCall := none } = .error "No active call" :=
  ⟨⟨rfl, rfl⟩, ⟨rfl, rfl⟩, ⟨rfl, rfl⟩, ⟨rfl, rfl⟩, rfl, rfl, rfl⟩

/-- Claim C7: `destroy()` is idempotent and safe when uninitialized, in
both the conference hook and the `TwilioService` class: with a device
held it destroys the device and clears the reference; with none held it
is a no-op (so calling it before initialization performs no collaborator
call and cannot throw); composing it with itself equals calling it
once. -/
theorem c7_destroy_idempotent (s : CHState) (t : SvcState) (d : Nat) :
    chDestroy (chDestroy s) = chDestroy s ∧
    chDestroy { s with device := none } = { s with device := none } ∧
    (chDestroy { s with device := some d }).device = none ∧
    d ∈ (chDestroy { s with device := some d }).destroyedDevices ∧
    svcDestroy (svcDestroy t) = svcDestroy t ∧
    svcDestroy { t with device := none } = { t with device := none } ∧
    (svcDestroy { t with device := some d }).device = none ∧
    d ∈ (svcDestroy { t with device := some d }).destroyedDevices := by
  refine ⟨?_, rfl, rfl, ?_, ?_, rfl, rfl, ?_⟩
  · cases h : s.device <;> simp [chDestroy, h]
  · simp [chDestroy]
  · cases h : t.device <;> simp [svcDestroy, h]
  · simp [svcDestroy]

/-- Claim C9: once initialized, the invite poller's interval is 1500 ms
when the call status is `open` or `conference` (a call in progress) and
3000 ms otherwise, so the in-call interval is strictly less than the
idle interval. -/
theorem c9_poll_interval (s : CHState) (h : s.isInitialized = true) :
    ((s.callStatus = "open" ∨ s.callStatus = "conference") →
       chSetupPolling s = some 1500) ∧
    (¬(s.callStatus = "open" ∨ s.callStatus = "conference") →
       chSetupPolling s = some 3000) ∧
    (∀ activeStatus idleStatus : String,
       (activeStatus = "open" ∨ activeStatus = "conference") →
       ¬(idleStatus = "open" ∨ idleStatus = "conference") →
       chPollInterval activeStatus < chPollInterval idleStatus) := by
  refine ⟨?_, ?_, ?_⟩
  · intro hs
    simp [chSetupPolling, h, chPollInterval, List.contains]
    rcases hs with hs | hs <;> simp [hs]
  · intro hs
    push_neg at hs
    simp [chSetupPolling, h, chPollInterval, List.contains, hs.1, hs.2]
  · intro activeStatus idleStatus ha hi
    push_neg at hi
    rcases ha with ha | ha <;>
      simp [chPollInterval, List.contains, ha, hi.1, hi.2]

/-- Claim C9, witness: an initialized state with an open call polls at
1500 ms; an initialized idle state polls at 3000 ms; 1500 < 3000. -/
theorem c9_poll_interval_witness :
    chSetupPolling sampleBusyState = some 1500 ∧
    chPollInterval "open" < chPollInterval "ready" := by
  refine ⟨?_, ?_⟩
  · exact (c9_poll_interval sampleBusyState rfl).1 (Or.inl rfl)
  · exact (c9_poll_interval sampleBusyState rfl).2.2 "open" "ready"
      (Or.inl rfl) (by decide)

/-- Claim C10: `TwilioService.isMuted` is total at the public interface:
with no Active Call it returns `false` rather than throwing, and with an
Active Call it returns that call's own `isMuted()`. -/
theorem c10_isMuted_total (s : SvcState) (c : SvcCall) :
    svcIsMuted { s with activeCall := none } = false ∧
    svcIsMuted { s with activeCall := some c } = c.muted :=
  ⟨rfl, rfl⟩

theorem ehCleanup_noCall (x : EHState) (h : x.activeCall = none) :
    ehCleanupCallResources x =
      { x with isMuted := false, remoteIdentity := "" } := by
  simp [ehCleanupCallResources, h]

theorem ehMakeCall_mem (s : EHState) (old : EHCall) (dest callType : String)
    (res : Except String EHCall) (dev : Nat)
    (hdev : s.device = some dev) (h : s.activeCall = some old)
    (hst : old.status ≠ "closed") :
    old.id ∈ (ehMakeCall dest callType res s).1.disconnectLog := by
  have hm := ehCleanup_disconnect_mem s old h hst
  have hnone := (ehCleanup_spec s).1
  simp only [ehMakeCall, hdev]
  cases res <;> (repeat' split) <;>
    simp_all [ehUpdateCallStatus, ehHandleError, ehCleanup_noCall]

/-- Claim C1, counterexample: in the conference hook, an incoming-call
event arriving while an active call is held stores the new call as the
Active Call without tearing the existing call down: no `disconnect()`
or `reject()` is invoked on it and no cleanup runs, the reference is
simply overwritten. -/
theorem c1_counterexample :
    sampleBusyState.activeCall = some samplePriorCall ∧
    (chOnIncoming sampleNewCall "alice" sampleBusyState).activeCall =
      some sampleNewCall ∧
    (chOnIncoming sampleNewCall "alice" sampleBusyState).disconnectLog = [] ∧
    (chOnIncoming sampleNewCall "alice" sampleBusyState).rejectLog = [] ∧
    (chOnIncoming sampleNewCall "alice" sampleBusyState).destroyedDevices = [] :=
  ⟨rfl, rfl, rfl, rfl, rfl⟩

/-- Claim C1 (amended): a single mutable Active Call reference exists, so
at most one call is referenced at any instant.  In the enhanced hook,
both the `incoming` handler and `makeCall` run `cleanupCallResources`
before storing the new call, so an existing non-closed call is
disconnected first.  In the conference hook, the `incoming` handler
stores the new call by overwriting the reference without tearing the
existing call down (no disconnect is invoked). -/
theorem c1_single_active_call (s : EHState) (c old : EHCall) (t : CHState)
    (c2 : CHCall) (dest callType uid : String) (res : Except String EHCall)
    (dev : Nat) :
    (ehOnIncoming c s).activeCall = some c ∧
    (s.activeCall = some old → old.status ≠ "closed" →
      old.id ∈ (ehOnIncoming c s).disconnectLog) ∧
    (s.device = some dev → s.activeCall = some old → old.status ≠ "closed" →
      old.id ∈ (ehMakeCall dest callType res s).1.disconnectLog) ∧
    (jsLookup "inviteId" c2.customParameters = none →
      (chOnIncoming c2 uid t).activeCall = some c2 ∧
      (chOnIncoming c2 uid t).disconnectLog = t.disconnectLog ∧
      (chOnIncoming c2 uid t).rejectLog = t.rejectLog) := by
  refine ⟨rfl, ?_, ?_, ?_⟩
  · intro h hst
    have hm := ehCleanup_disconnect_mem s old h hst
    have hlog : (ehOnIncoming c s).disconnectLog =
        (ehCleanupCallResources s).disconnectLog := rfl
    rw [hlog]; exact hm
  · intro hdev h hst
    exact ehMakeCall_mem s old dest callType res dev hdev h hst
  · intro hl
    simp only [chOnIncoming, hl]
    refine ⟨?_, ?_, ?_⟩ <;> simp [chUpdateCallStatus] <;> split <;> simp

/-- Claim C1, witness: an incoming call in the enhanced hook, arriving
while a non-closed call is held, is stored as the Active Call and the
prior call was disconnected first. -/
theorem c1_witness :
    (ehOnIncoming { id := 9 } { activeCall := some { id := 3 } }).activeCall =
      some { id := 9 } ∧
    3 ∈ (ehOnIncoming { id := 9 }
          { activeCall := some { id := 3 } }).disconnectLog := by
  refine ⟨(c1_single_active_call { activeCall := some { id := 3 } }
    { id := 9 } { id := 3 } {} { id := 0 } "b" "direct" "u" (.error "x") 0).1, ?_⟩
  exact (c1_single_active_call { activeCall := some { id := 3 } }
    { id := 9 } { id := 3 } {} { id := 0 } "b" "direct" "u" (.error "x") 0).2.1
    rfl (by decide)

/-- Claim C4, counterexample: a failing token fetch inside the conference
hook's `initialize` does not propagate — the function returns normally
(`.ok ()`) after recording the error; and a failing `connect` inside
the enhanced hook's `makeCall` does propagate but leaves the local
state with `callStatus = "ready"` and an empty error message, not
`callStatus = "error"` with the message recorded. -/
theorem c4_counterexample :
    (chInitializeDevice "alice" (.error "network down") 7 {}).2 = .ok () ∧
    (chInitializeDevice "alice" (.error "network down") 7 {}).1.callStatus =
      "error" ∧
    (chInitializeDevice "alice" (.error "network down") 7 {}).1.error =
      "Twilio error: Failed to fetch token: network down" ∧
    (ehMakeCall "bob" "direct" (.error "boom") { device := some 1 }).2 =
      .error "boom" ∧
    (ehMakeCall "bob" "direct" (.error "boom")
      { device := some 1 }).1.callStatus = "ready" ∧
    (ehMakeCall "bob" "direct" (.error "boom") { device := some 1 }).1.error =
      "" :=
  ⟨rfl, rfl, rfl, rfl, rfl, rfl⟩

/-- Claim C4 (amended): in the enhanced hook, every error thrown inside
`initialize` propagates to the caller with the local state reset first:
status `error`, the message recorded as `Initialization error: …`, the
device reference cleared and `isInitialized` false.  An error thrown by
`connect` inside the enhanced hook's `makeCall` propagates with the
Active Call reference cleared, but the status is then reset to `ready`
and the error message cleared before propagation.  The conference
hook's `initialize` records status `error` with the message but
swallows the error: it never propagates. -/
theorem c4_setup_error_reset (uid dest callType : String)
    (apiRes : Except String String) (micOk : Bool)
    (regRes : Except String Unit) (dev dev2 : Nat)
    (res : Except String EHCall) (s s2 : EHState) (t : CHState)
    (e1 e2 m : String) :
    ((ehInitializeDevice uid apiRes micOk regRes dev s).2 = .error e1 →
      (ehInitializeDevice uid apiRes micOk regRes dev s).1.callStatus =
        "error" ∧
      (ehInitializeDevice uid apiRes micOk regRes dev s).1.error =
        "Initialization error: " ++ e1 ∧
      (ehInitializeDevice uid apiRes micOk regRes dev s).1.device = none ∧
      (ehInitializeDevice uid apiRes micOk regRes dev s).1.isInitialized =
        false) ∧
    (s2.device = some dev2 → (ehMakeCall dest callType res s2).2 = .error e2 →
      (ehMakeCall dest callType res s2).1.activeCall = none ∧
      (ehMakeCall dest callType res s2).1.callStatus = "ready" ∧
      (ehMakeCall dest callType res s2).1.error = "") ∧
    ((chInitializeDevice uid (.error m) dev t).2 = .ok () ∧
     (chInitializeDevice uid (.error m) dev t).1.callStatus = "error" ∧
     (chInitializeDevice uid (.error m) dev t).1.error =
       "Twilio error: Failed to fetch token: " ++ m ∧
     (chInitializeDevice uid (.error m) dev t).1.isInitialized = false) := by
  refine ⟨?_, ?_, rfl, rfl, rfl, rfl⟩
  · intro hErr
    rcases htr : ehInitTry apiRes micOk regRes dev
        { s with identity := uid, error := "", callStatus := "initializing" }
      with ⟨s', r⟩
    cases r with
    | ok u =>
      simp only [ehInitializeDevice, htr] at hErr
      simp at hErr
    | error e' =>
      simp only [ehInitializeDevice, htr] at hErr ⊢
      simp only [Except.error.injEq] at hErr
      subst hErr
      cases hd : s'.device <;> simp [hd]
  · intro hdev hErr
    simp only [ehMakeCall, hdev] at hErr ⊢
    cases res with
    | ok call => simp at hErr
    | error e' => exact ⟨(ehCleanup_spec _).1, rfl, rfl⟩

/-- Claim C4, witness: a failing token fetch in the enhanced hook's
`initialize` leaves status `error` and no device; a failing `connect` in
its `makeCall` leaves status `ready`; the conference hook's `initialize`
returns normally on a failing token fetch. -/
theorem c4_witness :
    (ehInitializeDevice "dora" (.error "netfail") true (.ok ()) 7
      {}).1.callStatus = "error" ∧
    (ehInitializeDevice "dora" (.error "netfail") true (.ok ()) 7
      {}).1.device = none ∧
    (ehMakeCall "carol" "direct" (.error "busy")
      { device := some 2 }).1.callStatus = "ready" ∧
    (chInitializeDevice "dora" (.error "netfail") 3 {}).2 = .ok () := by
  refine ⟨?_, ?_, ?_, ?_⟩
  · exact ((c4_setup_error_reset "dora" "carol" "direct" (.error "netfail")
      true (.ok ()) 7 2 (.error "busy") {} { device := some 2 } {}
      "Failed to fetch token: netfail" "busy" "netfail").1 rfl).1
  · exact ((c4_setup_error_reset "dora" "carol" "direct" (.error "netfail")
      true (.ok ()) 7 2 (.error "busy") {} { device := some 2 } {}
      "Failed to fetch token: netfail" "busy" "netfail").1 rfl).2.2.1
  · exact ((c4_setup_error_reset "dora" "carol" "direct" (.error "netfail")
      true (.ok ()) 7 2 (.error "busy") {} { device := some 2 } {}
      "Failed to fetch token: netfail" "busy" "netfail").2.1 rfl rfl).2.1
  · exact (c4_setup_error_reset "dora" "carol" "direct" (.error "netfail")
      true (.ok ()) 7 2 (.error "busy") {} { device := some 2 } {}
      "Failed to fetch token: netfail" "busy" "netfail").2.2.1

/-- Claim C5: `TOKEN_REFRESH_INTERVAL` is 59 minutes, one minute before
the nominal 60-minute expiry; `setupTokenRefresh` arms the refresh timer
at that delay; a successful refresh pushes the new token into the live
device (`updateToken`) and re-arms the next refresh; a failed refresh
arms a retry timer with a fixed 60-second backoff whose firing re-arms
the refresh schedule; and along every sequence of timer firings a timer
remains scheduled — the process never silently stops. -/
theorem c5_token_refresh (s : RefreshState) (d : Nat) (tok e : String)
    (outs : List (Except String String × Bool)) :
    TOKEN_REFRESH_INTERVAL = 59 * 60 * 1000 ∧
    TOKEN_REFRESH_INTERVAL + 60 * 1000 = 60 * 60 * 1000 ∧
    (setupTokenRefresh s).timer =
      some (TOKEN_REFRESH_INTERVAL, TimerKind.refresh) ∧
    (s.timer = some (d, TimerKind.refresh) → s.devicePresent = true →
      fireRefreshTimer s (.ok tok, true) =
        setupTokenRefresh { s with tokenRef := tok, deviceToken := some tok }) ∧
    (s.timer = some (d, TimerKind.refresh) →
      (fireRefreshTimer s (.error e, true)).timer =
        some (60000, TimerKind.rearm)) ∧
    (s.timer = some (60000, TimerKind.rearm) →
      (fireRefreshTimer s (.ok tok, true)).timer =
        some (TOKEN_REFRESH_INTERVAL, TimerKind.refresh)) ∧
    (s.timer.isSome = true → (runRefresh s outs).timer.isSome = true) := by
  refine ⟨rfl, by decide, rfl, ?_, ?_, ?_, ?_⟩
  · intro ht hdev
    simp [fireRefreshTimer, ht, hdev, setupTokenRefresh]
  · intro ht
    simp [fireRefreshTimer, ht]
  · intro ht
    simp [fireRefreshTimer, ht, setupTokenRefresh]
  · exact runRefresh_isSome outs s

/-- Claim C5, witness: a freshly armed refresh timer that fires
successfully pushes the token and re-arms; one that fails arms the
60-second retry timer; the retry timer re-arms the refresh timer; and a
timer is still scheduled after a failure followed by a success. -/
theorem c5_witness :
    fireRefreshTimer (setupTokenRefresh {}) (.ok "tok2", true) =
      setupTokenRefresh { (setupTokenRefresh {} : RefreshState) with
                          tokenRef := "tok2", deviceToken := some "tok2" } ∧
    (fireRefreshTimer (setupTokenRefresh {}) (.error "x", true)).timer =
      some (60000, TimerKind.rearm) ∧
    (fireRefreshTimer { timer := some (60000, TimerKind.rearm) }
      (.ok "t", true)).timer =
      some (TOKEN_REFRESH_INTERVAL, TimerKind.refresh) ∧
    (runRefresh (setupTokenRefresh {})
      [(.error "x", true), (.ok "t", true)]).timer.isSome = true := by
  refine ⟨?_, ?_, ?_, ?_⟩
  · exact (c5_token_refresh (setupTokenRefresh {}) TOKEN_REFRESH_INTERVAL
      "tok2" "x" []).2.2.2.1 rfl rfl
  · exact (c5_token_refresh (setupTokenRefresh {}) TOKEN_REFRESH_INTERVAL
      "tok2" "x" []).2.2.2.2.1 rfl
  · exact (c5_token_refresh { timer := some (60000, TimerKind.rearm) } 0
      "t" "x" []).2.2.2.2.2.1 rfl
  · exact (c5_token_refresh (setupTokenRefresh {}) 0 "t" "x"
      [(.error "x", true), (.ok "t", true)]).2.2.2.2.2.2 rfl

/-- Claim C6: the invite poller never regresses a displayed invite: while
an invite with id `X` is displayed, a polling result whose first invite
also has id `X` leaves the state unchanged and fires no notification,
while a polling result whose first invite has a different id replaces
the displayed invite and fires the notification. -/
theorem c6_poll_dedup (s : CHState) (cur inv : IncomingInvite)
    (rest : List IncomingInvite) (data : PollData)
    (hinit : s.isInitialized = true) (hid : s.identity ≠ "")
    (hcur : s.incomingInvite = some cur) (hhas : data.hasInvites = true)
    (hinv : data.invites = inv :: rest) :
    (inv.inviteId = cur.inviteId → chPollForInvites s (.ok data) = s) ∧
    (inv.inviteId ≠ cur.inviteId →
      (chPollForInvites s (.ok data)).incomingInvite = some inv ∧
      (chPollForInvites s (.ok data)).notifyCount = s.notifyCount + 1) := by
  constructor
  · intro heq
    simp [chPollForInvites, hinit, hid, hhas, hinv, hcur, heq]
  · intro hne
    simp [chPollForInvites, hinit, hid, hhas, hinv, hcur,
          chHandleIncomingConferenceInvite, Ne.symm hne]

/-- Claim C6, witness: with invite `X` displayed, polling `X` again
changes nothing, and polling a different invite `Y` replaces the
display. -/
theorem c6_witness :
    chPollForInvites sampleInviteState
      (.ok { hasInvites := true, invites := [sampleInviteX] }) =
      sampleInviteState ∧
    (chPollForInvites sampleInviteState
      (.ok { hasInvites := true, invites := [sampleInviteY] })).incomingInvite =
      some sampleInviteY := by
  constructor
  · exact (c6_poll_dedup sampleInviteState sampleInviteX sampleInviteX []
      { hasInvites := true, invites := [sampleInviteX] } rfl (by decide)
      rfl rfl rfl).1 rfl
  · exact ((c6_poll_dedup sampleInviteState sampleInviteX sampleInviteY []
      { hasInvites := true, invites := [sampleInviteY] } rfl (by decide)
      rfl rfl rfl).2 (by decide)).1

/-- Claim C8: `makeCall` of the enhanced hook formats the destination per
the call-type convention: a conference call connects with
`To = "conference:" ++ d`; a direct call connects with
`To = "client:" ++ d` unless `d` already starts with `client:`, in which
case `d` is passed unchanged, making the prefixing idempotent; and the
`To` parameter passed to `device.connect` is exactly the formatted
destination. -/
theorem c8_format_destination (dest callType : String) (dev : Nat)
    (res : Except String EHCall) (s : EHState) :
    ehFormatDestination "conference" dest = "conference:" ++ dest ∧
    (jsStartsWith dest "client:" = true →
      ehFormatDestination "direct" dest = dest) ∧
    (jsStartsWith dest "client:" = false →
      ehFormatDestination "direct" dest = "client:" ++ dest) ∧
    ehFormatDestination "direct" (ehFormatDestination "direct" dest) =
      ehFormatDestination "direct" dest ∧
    (s.device = some dev →
      ((ehMakeCall dest callType res s).1.connectToLog).head? =
        some (ehFormatDestination callType dest)) := by
  refine ⟨?_, ?_, ?_, ?_, ?_⟩
  · simp [ehFormatDestination]
  · intro h; simp [ehFormatDestination, h]
  · intro h; simp [ehFormatDestination, h]
  · by_cases h : jsStartsWith dest "client:" = true
    · simp [ehFormatDestination, h]
    · simp only [ehFormatDestination, String.reduceEq, if_false, h,
        Bool.false_eq_true, jsStartsWith_append_self, if_true]
  · intro hdev
    cases res with
    | ok call =>
      simp only [ehMakeCall, hdev]
      (repeat' split) <;> simp_all [ehUpdateCallStatus]
    | error e =>
      simp only [ehMakeCall, hdev]
      (repeat' split) <;>
        simp_all [ehUpdateCallStatus, ehCleanup_connectToLog, ehHandleError]

/-- Claim C8, witness: concrete conference and direct destinations are
formatted per the convention, `client:`-prefixed input passes through
unchanged, and a concrete `makeCall` connects with the formatted
destination. -/
theorem c8_witness :
    ehFormatDestination "conference" "room1" = "conference:room1" ∧
    ehFormatDestination "direct" "bob" = "client:bob" ∧
    ehFormatDestination "direct" "client:bob" = "client:bob" ∧
    ((ehMakeCall "bob" "direct" (.error "x")
        { device := some 1 }).1.connectToLog).head? =
      some (ehFormatDestination "direct" "bob") := by
  refine ⟨?_, ?_, ?_, ?_⟩
  · exact (c8_format_destination "room1" "direct" 1 (.error "x") {}).1
  · exact (c8_format_destination "bob" "direct" 1 (.error "x") {}).2.2.1
      (by decide)
  · exact (c8_format_destination "client:bob" "direct" 1 (.error "x")
      {}).2.1 (by decide)
  · exact (c8_format_destination "bob" "direct" 1 (.error "x")
      { device := some 1 }).2.2.2.2 rfl
